import Mathlib

/-!
Verification of the C zlib/libpng demo program (`src/main.c`).

The program is a single straight-line `main` that
  1. compresses a fixed string with zlib's `compress` into a 100-byte buffer,
  2. decompresses it with `uncompress` into another 100-byte buffer,
  3. writes a terminating NUL byte after the decompressed payload,
  4. prints the original and decompressed strings,
  5. prints libpng's compile-time version string and runtime numeric version,
  6. fails if the runtime version query returns 0, and otherwise prints a
     success line and exits 0.

We embed `main` as a Lean function `run` over an abstract environment: the
zlib primitives (`compress`/`uncompress`) and the libpng runtime version are
parameters, because they are external library code, not part of this
repository.  The contract those libraries obey is captured by the predicate
`ZlibSpec`, modelled from the specification's glossary.
-/

namespace ZlibDemo

/-- A byte is modelled as a natural number (< 256 in all real runs). -/
abbrev Byte := Nat

/-- The fixed demo input string, `text` in `main.c`:
`const char* text = "Hello from zlib via conda forge!";` -/
def text : String := "Hello from zlib via conda forge!"

/-- The bytes of the demo input, i.e. what `(const Bytef*)text` with length
`strlen(text)` passes to `compress` (ASCII, no interior NUL). -/
def textBytes : List Byte := text.toList.map Char.toNat

/-- The environment's zlib primitives.  `compress cap src` models
`compress(dest, &destLen, src, srcLen)` with `destLen = cap` on entry:
`some out` means the call returned `Z_OK` having written the bytes `out`
(so `destLen = out.length` on exit); `none` means a non-`Z_OK` status.
`uncompress` is modelled the same way. -/
structure Zlib where
  compress : Nat → List Byte → Option (List Byte)
  uncompress : Nat → List Byte → Option (List Byte)

/-- Modelled from the spec: the zlib library's implementation is external
third-party code, absent from this repository.  The spec's glossary and §6
give its contract: each primitive reports success only when its output fits
the destination capacity, and the decompression primitive is "the inverse
routine, reconstructing original bytes from the encoded sequence". -/
structure ZlibSpec (z : Zlib) : Prop where
  compress_fits : ∀ cap src out, z.compress cap src = some out → out.length ≤ cap
  uncompress_fits : ∀ cap src out, z.uncompress cap src = some out → out.length ≤ cap
  roundtrip : ∀ cap cap2 src out out2, z.compress cap src = some out →
    z.uncompress cap2 out = some out2 → out2 = src

/-- Write one byte at index `i` of a buffer. -/
def store (buf : Nat → Byte) (i : Nat) (v : Byte) : Nat → Byte :=
  fun j => if j = i then v else buf j

/-- Write a list of bytes into a buffer starting at index `i`. -/
def storeList (buf : Nat → Byte) (i : Nat) : List Byte → (Nat → Byte)
  | [] => buf
  | x :: xs => storeList (store buf i x) (i + 1) xs

/-- The first `n` bytes of a buffer, as a list. -/
def bufBytes (buf : Nat → Byte) (n : Nat) : List Byte :=
  (List.range n).map buf

/-- Read a C string from a buffer starting at index `i`: the bytes up to (not
including) the first NUL byte.  `fuel` bounds the scan; `printf("%s", …)` on
the demo's 100-byte buffer never reads past index 100, so fuel 101 is exact. -/
def cstrFrom (buf : Nat → Byte) : Nat → Nat → List Byte
  | _, 0 => []
  | i, fuel + 1 => if buf i = 0 then [] else buf i :: cstrFrom buf (i + 1) fuel

/-- Render a list of bytes as the string `printf("%s", …)` prints. -/
def bytesToString (xs : List Byte) : String :=
  String.mk (xs.map Char.ofNat)

/-- Observable outcome of one run of `main`: exit status, the exact chunks
written to stdout and stderr (one entry per `printf`/`fprintf` call, with its
embedded newlines), which external calls happened, the lengths the library
calls recorded, the bytes the decompression call wrote, the index where the
terminator byte was stored, and the final decompressed buffer. -/
structure RunResult where
  exitCode : Nat
  stdout : List String
  stderr : List String
  uncompressCalled : Bool
  versionQueried : Bool
  compressedLen : Option Nat
  decompressedLen : Option Nat
  decompOut : Option (List Byte)
  terminatorIndex : Option Nat
  decompBuf : Nat → Byte

/-- The decompressed buffer after the success path of `main`:
`decompressed` holds the bytes `uncompress` wrote, and then
`decompressed[decompressedSize] = '\0'` stores the terminator. -/
def finalBuf (initBuf : Nat → Byte) (d : List Byte) : Nat → Byte :=
  store (storeList initBuf 0 d) d.length 0

/-- Outcome of the `compress(...) != Z_OK` branch:
`printf("Fehler bei compress()\n"); return 1;`. -/
def compressFailResult (initBuf : Nat → Byte) : RunResult :=
  { exitCode := 1
    stdout := ["Fehler bei compress()\n"]
    stderr := []
    uncompressCalled := false
    versionQueried := false
    compressedLen := none
    decompressedLen := none
    decompOut := none
    terminatorIndex := none
    decompBuf := initBuf }

/-- Outcome of the `uncompress(...) != Z_OK` branch:
`printf("Fehler bei uncompress()\n"); return 1;`. -/
def uncompressFailResult (initBuf : Nat → Byte) (comp : List Byte) : RunResult :=
  { exitCode := 1
    stdout := ["Fehler bei uncompress()\n"]
    stderr := []
    uncompressCalled := true
    versionQueried := false
    compressedLen := some comp.length
    decompressedLen := none
    decompOut := none
    terminatorIndex := none
    decompBuf := initBuf }

/-- The four `printf` chunks main emits on the success path before checking
the runtime version: original text, decompressed text, compile-time version
string (preceded by a blank line), and the numeric runtime version. -/
def headLines (pngVer : Nat) (pngVerStr : String) (initBuf : Nat → Byte)
    (decomp : List Byte) : List String :=
  ["Original:     " ++ text ++ "\n",
   "Dekomprimiert: " ++ bytesToString (cstrFrom (finalBuf initBuf decomp) 0 101) ++ "\n",
   "\nlibpng compile-time version: " ++ pngVerStr ++ "\n",
   "libpng runtime version (numeric): " ++ toString pngVer ++ "\n"]

/-- Outcome of the `png_runtime_ver == 0` branch: the head lines are already
on stdout, the diagnostic goes to stderr, `return 1`. -/
def versionFailResult (pngVer : Nat) (pngVerStr : String) (initBuf : Nat → Byte)
    (comp decomp : List Byte) : RunResult :=
  { exitCode := 1
    stdout := headLines pngVer pngVerStr initBuf decomp
    stderr := ["Fehler: libpng Runtime-Version konnte nicht ermittelt werden!\n"]
    uncompressCalled := true
    versionQueried := true
    compressedLen := some comp.length
    decompressedLen := some decomp.length
    decompOut := some decomp
    terminatorIndex := some decomp.length
    decompBuf := finalBuf initBuf decomp }

/-- Outcome of the fully successful path: head lines plus the confirmation
line on stdout, `return 0`. -/
def successResult (pngVer : Nat) (pngVerStr : String) (initBuf : Nat → Byte)
    (comp decomp : List Byte) : RunResult :=
  { exitCode := 0
    stdout := headLines pngVer pngVerStr initBuf decomp ++
      ["zlib und libpng sind erfolgreich gelinkt und verwendbar.\n"]
    stderr := []
    uncompressCalled := true
    versionQueried := true
    compressedLen := some comp.length
    decompressedLen := some decomp.length
    decompOut := some decomp
    terminatorIndex := some decomp.length
    decompBuf := finalBuf initBuf decomp }

/-- Shallow embedding of `main` from `src/main.c`.  `z` supplies the zlib
primitives, `pngVer` the value `png_access_version_number()` returns,
`pngVerStr` the compile-time constant `PNG_LIBPNG_VER_STRING`, and `initBuf`
the (uninitialized) initial content of the `decompressed` stack buffer.
Both buffers are declared `unsigned char …[100]`, so both capacities are 100:
`compress` receives `compressedSize = sizeof(compressed) = 100` and
`uncompress` receives `decompressedSize = sizeof(decompressed) = 100`. -/
def run (z : Zlib) (pngVer : Nat) (pngVerStr : String) (initBuf : Nat → Byte) :
    RunResult :=
  match z.compress 100 textBytes with
  | none => compressFailResult initBuf
  | some comp =>
    match z.uncompress 100 comp with
    | none => uncompressFailResult initBuf comp
    | some decomp =>
      if pngVer = 0 then versionFailResult pngVer pngVerStr initBuf comp decomp
      else successResult pngVer pngVerStr initBuf comp decomp

/-- A concrete environment for witnesses: the identity codec, which satisfies
the zlib contract. -/
def zId : Zlib :=
  { compress := fun cap src => if src.length ≤ cap then some src else none
    uncompress := fun cap src => if src.length ≤ cap then some src else none }

/-- Environment whose compression primitive always fails. -/
def zCompressFail : Zlib :=
  { compress := fun _ _ => none
    uncompress := fun cap src => if src.length ≤ cap then some src else none }

/-- Environment whose decompression primitive always fails. -/
def zUncompressFail : Zlib :=
  { compress := fun cap src => if src.length ≤ cap then some src else none
    uncompress := fun _ _ => none }

/-- Environment violating the roundtrip contract: decompression returns
bytes different from the original input. -/
def zWrong : Zlib :=
  { compress := fun _ _ => some [1]
    uncompress := fun _ _ => some [2, 3] }

/-- Zero-initialized buffer used as a concrete `initBuf` in witnesses. -/
def zeroBuf : Nat → Byte := fun _ => 0

theorem zId_spec : ZlibSpec zId := by
  constructor
  · intro cap src out h
    simp only [zId] at h
    split at h
    · cases h; assumption
    · cases h
  · intro cap src out h
    simp only [zId] at h
    split at h
    · cases h; assumption
    · cases h
  · intro cap cap2 src out out2 h1 h2
    simp only [zId] at h1 h2
    split at h1
    · cases h1
      split at h2
      · cases h2; rfl
      · cases h2
    · cases h1

theorem storeList_lt (xs : List Byte) (buf : Nat → Byte) (i k : Nat)
    (h : k < i) : storeList buf i xs k = buf k := by
  induction xs generalizing buf i with
  | nil => rfl
  | cons x xs ih =>
    have hk : k < i + 1 := Nat.lt_succ_of_lt h
    simp only [storeList]
    rw [ih (store buf i x) (i + 1) hk]
    simp only [store]
    rw [if_neg (Nat.ne_of_lt h)]

theorem storeList_getD (xs : List Byte) (buf : Nat → Byte) (i j : Nat)
    (h : j < xs.length) : storeList buf i xs (i + j) = xs.getD j 0 := by
  induction xs generalizing buf i j with
  | nil => exact absurd h (Nat.not_lt_zero j)
  | cons x xs ih =>
    cases j with
    | zero =>
      simp only [storeList, Nat.add_zero, List.getD]
      rw [storeList_lt xs (store buf i x) (i + 1) i (Nat.lt_succ_self i)]
      simp [store]
    | succ j' =>
      have h' : j' < xs.length := Nat.lt_of_succ_lt_succ (by simpa using h)
      have harith : i + (j' + 1) = (i + 1) + j' := by omega
      simp only [storeList, harith, List.getD]
      rw [ih (store buf i x) (i + 1) j' h']
      rfl

theorem bufBytes_of_pointwise (xs : List Byte) (buf : Nat → Byte)
    (h : ∀ j, j < xs.length → buf j = xs.getD j 0) :
    bufBytes buf xs.length = xs := by
  apply List.ext_getElem
  · simp [bufBytes]
  · intro i h1 h2
    simp only [bufBytes, List.getElem_map, List.getElem_range]
    rw [h i h2, List.getD_eq_getElem xs 0 h2]

theorem cstrFrom_eq (xs : List Byte) (buf : Nat → Byte) (i fuel : Nat)
    (hread : ∀ j, j < xs.length → buf (i + j) = xs.getD j 0)
    (hterm : buf (i + xs.length) = 0)
    (hnz : ∀ j, j < xs.length → xs.getD j 0 ≠ 0)
    (hfuel : xs.length < fuel) :
    cstrFrom buf i fuel = xs := by
  induction xs generalizing i fuel with
  | nil =>
    cases fuel with
    | zero => exact absurd hfuel (Nat.not_lt_zero 0)
    | succ f =>
      simp only [cstrFrom]
      rw [if_pos]
      simpa using hterm
  | cons x xs ih =>
    cases fuel with
    | zero => exact absurd hfuel (Nat.not_lt_zero _)
    | succ f =>
      have hx : buf i = x := by simpa using hread 0 (Nat.succ_pos _)
      have hxnz : x ≠ 0 := by simpa using hnz 0 (Nat.succ_pos _)
      simp only [cstrFrom, hx, if_neg hxnz]
      congr 1
      apply ih (i + 1) f
      · intro j hj
        have := hread (j + 1) (by simpa using Nat.succ_lt_succ hj)
        simpa [Nat.add_assoc, Nat.add_comm 1 j] using this
      · have := hterm
        simp only [List.length_cons] at this
        simpa [Nat.add_assoc, Nat.add_comm 1 xs.length] using this
      · intro j hj
        simpa using hnz (j + 1) (by simpa using Nat.succ_lt_succ hj)
      · simpa using Nat.lt_of_succ_lt_succ (Nat.succ_lt_succ hfuel)

theorem finalBuf_read (initBuf : Nat → Byte) (d : List Byte) :
    (∀ j, j < d.length → finalBuf initBuf d j = d.getD j 0) ∧
    finalBuf initBuf d d.length = 0 := by
  constructor
  · intro j hj
    have := storeList_getD d initBuf 0 j hj
    simp only [Nat.zero_add] at this
    simp only [finalBuf, store, if_neg (Nat.ne_of_lt hj)]
    exact this
  · simp [finalBuf, store]

theorem finalBuf_bufBytes (initBuf : Nat → Byte) (d : List Byte) :
    bufBytes (finalBuf initBuf d) d.length = d :=
  bufBytes_of_pointwise d (finalBuf initBuf d) (finalBuf_read initBuf d).1

theorem finalBuf_cstr (initBuf : Nat → Byte) (d : List Byte)
    (hnz : ∀ j, j < d.length → d.getD j 0 ≠ 0) (hlen : d.length < 101) :
    cstrFrom (finalBuf initBuf d) 0 101 = d := by
  apply cstrFrom_eq d (finalBuf initBuf d) 0 101
  · intro j hj
    simpa using (finalBuf_read initBuf d).1 j hj
  · simpa using (finalBuf_read initBuf d).2
  · exact hnz
  · exact hlen

theorem textBytes_length : textBytes.length = 32 := by decide

theorem textBytes_nonzero : ∀ j, j < textBytes.length → textBytes.getD j 0 ≠ 0 := by
  decide

theorem run_eq_compressFail (z : Zlib) (v : Nat) (s : String) (b : Nat → Byte)
    (hc : z.compress 100 textBytes = none) :
    run z v s b = compressFailResult b := by
  simp only [run, hc]

theorem run_eq_uncompressFail (z : Zlib) (v : Nat) (s : String) (b : Nat → Byte)
    (c : List Byte) (hc : z.compress 100 textBytes = some c)
    (hu : z.uncompress 100 c = none) :
    run z v s b = uncompressFailResult b c := by
  simp only [run, hc, hu]

theorem run_eq_versionFail (z : Zlib) (s : String) (b : Nat → Byte)
    (c d : List Byte) (hc : z.compress 100 textBytes = some c)
    (hu : z.uncompress 100 c = some d) :
    run z 0 s b = versionFailResult 0 s b c d := by
  simp [run, hc, hu]

theorem run_eq_success (z : Zlib) (v : Nat) (s : String) (b : Nat → Byte)
    (c d : List Byte) (hv : v ≠ 0) (hc : z.compress 100 textBytes = some c)
    (hu : z.uncompress 100 c = some d) :
    run z v s b = successResult v s b c d := by
  simp only [run, hc, hu]
  rw [if_neg hv]

/-- C1: for the fixed demo input, when both the compression call and the
decompression call succeed, the decompression output (and the decompressed
buffer's content up to the recorded used-length) equals the original input
byte-for-byte, and the recorded used-length equals the input's length. -/
theorem c1_roundtrip (z : Zlib) (v : Nat) (s : String) (b : Nat → Byte)
    (c d : List Byte) (hz : ZlibSpec z)
    (hc : z.compress 100 textBytes = some c)
    (hu : z.uncompress 100 c = some d) :
    (run z v s b).decompOut = some textBytes ∧
    (run z v s b).decompressedLen = some textBytes.length ∧
    bufBytes (run z v s b).decompBuf textBytes.length = textBytes := by
  have hd : d = textBytes := hz.roundtrip 100 100 textBytes c d hc hu
  subst hd
  by_cases hv : v = 0
  · subst hv
    rw [run_eq_versionFail z s b c textBytes hc hu]
    exact ⟨rfl, rfl, finalBuf_bufBytes b textBytes⟩
  · rw [run_eq_success z v s b c textBytes hv hc hu]
    exact ⟨rfl, rfl, finalBuf_bufBytes b textBytes⟩

theorem c1_roundtrip_witness :
    (run zId 1 "1.6.43" zeroBuf).decompOut = some textBytes ∧
    (run zId 1 "1.6.43" zeroBuf).decompressedLen = some textBytes.length ∧
    bufBytes (run zId 1 "1.6.43" zeroBuf).decompBuf textBytes.length = textBytes :=
  c1_roundtrip zId 1 "1.6.43" zeroBuf textBytes textBytes zId_spec rfl rfl

/-- C2: the exit status is 0 iff compression, decompression and the runtime
version query (nonzero result) all succeed, and it is 1 in every other run. -/
theorem c2_exit_codes (z : Zlib) (v : Nat) (s : String) (b : Nat → Byte) :
    ((run z v s b).exitCode = 0 ↔
      ((∃ c d, z.compress 100 textBytes = some c ∧ z.uncompress 100 c = some d) ∧
        v ≠ 0)) ∧
    ((run z v s b).exitCode = 0 ∨ (run z v s b).exitCode = 1) := by
  cases hc : z.compress 100 textBytes with
  | none =>
    rw [run_eq_compressFail z v s b hc]
    refine ⟨⟨fun h => absurd h one_ne_zero, ?_⟩, Or.inr rfl⟩
    rintro ⟨⟨c, d, hc2, -⟩, -⟩
    exact Option.noConfusion hc2
  | some c =>
    cases hu : z.uncompress 100 c with
    | none =>
      rw [run_eq_uncompressFail z v s b c hc hu]
      refine ⟨⟨fun h => absurd h one_ne_zero, ?_⟩, Or.inr rfl⟩
      rintro ⟨⟨c2, d, hc2, hu2⟩, -⟩
      injection hc2 with h2
      subst h2
      rw [hu] at hu2
      exact Option.noConfusion hu2
    | some d =>
      by_cases hv : v = 0
      · subst hv
        rw [run_eq_versionFail z s b c d hc hu]
        exact ⟨⟨fun h => absurd h one_ne_zero, fun h => absurd rfl h.2⟩, Or.inr rfl⟩
      · rw [run_eq_success z v s b c d hv hc hu]
        exact ⟨⟨fun _ => ⟨⟨c, d, rfl, hu⟩, hv⟩, fun _ => rfl⟩, Or.inl rfl⟩

theorem c2_exit_codes_witness :
    (run zId 1 "1.6.43" zeroBuf).exitCode = 0 ∧
    (run zCompressFail 1 "1.6.43" zeroBuf).exitCode = 1 := by
  constructor
  · exact (c2_exit_codes zId 1 "1.6.43" zeroBuf).1.mpr
      ⟨⟨textBytes, textBytes, rfl, rfl⟩, one_ne_zero⟩
  · rcases (c2_exit_codes zCompressFail 1 "1.6.43" zeroBuf).2 with h | h
    · exact absurd ((c2_exit_codes zCompressFail 1 "1.6.43" zeroBuf).1.mp h)
        (by rintro ⟨⟨c, d, hc, -⟩, -⟩; cases hc)
    · exact h

/-- C3: whenever the compression primitive reports failure, the program exits
with status 1 and the decompression primitive is never invoked. -/
theorem c3_compress_fail (z : Zlib) (v : Nat) (s : String) (b : Nat → Byte)
    (hc : z.compress 100 textBytes = none) :
    (run z v s b).exitCode = 1 ∧ (run z v s b).uncompressCalled = false := by
  rw [run_eq_compressFail z v s b hc]
  exact ⟨rfl, rfl⟩

theorem c3_compress_fail_witness :
    (run zCompressFail 1 "1.6.43" zeroBuf).exitCode = 1 ∧
    (run zCompressFail 1 "1.6.43" zeroBuf).uncompressCalled = false :=
  c3_compress_fail zCompressFail 1 "1.6.43" zeroBuf rfl

/-- C4: whenever compression succeeds but the decompression primitive reports
failure, the program exits with status 1, never queries the version, and its
standard output is only the decompression diagnostic (no version line). -/
theorem c4_uncompress_fail (z : Zlib) (v : Nat) (s : String) (b : Nat → Byte)
    (c : List Byte) (hc : z.compress 100 textBytes = some c)
    (hu : z.uncompress 100 c = none) :
    (run z v s b).exitCode = 1 ∧ (run z v s b).versionQueried = false ∧
    (run z v s b).stdout = ["Fehler bei uncompress()\n"] := by
  rw [run_eq_uncompressFail z v s b c hc hu]
  exact ⟨rfl, rfl, rfl⟩

theorem c4_uncompress_fail_witness :
    (run zUncompressFail 1 "1.6.43" zeroBuf).exitCode = 1 ∧
    (run zUncompressFail 1 "1.6.43" zeroBuf).versionQueried = false ∧
    (run zUncompressFail 1 "1.6.43" zeroBuf).stdout = ["Fehler bei uncompress()\n"] :=
  c4_uncompress_fail zUncompressFail 1 "1.6.43" zeroBuf textBytes rfl rfl

/-- C5: whenever compression and decompression succeed but the runtime version
query returns the sentinel 0, the program prints exactly one diagnostic line
to standard error and exits with status 1. -/
theorem c5_version_zero (z : Zlib) (s : String) (b : Nat → Byte)
    (c d : List Byte) (hc : z.compress 100 textBytes = some c)
    (hu : z.uncompress 100 c = some d) :
    (run z 0 s b).stderr =
      ["Fehler: libpng Runtime-Version konnte nicht ermittelt werden!\n"] ∧
    (run z 0 s b).exitCode = 1 := by
  rw [run_eq_versionFail z s b c d hc hu]
  exact ⟨rfl, rfl⟩

theorem c5_version_zero_witness :
    (run zId 0 "1.6.43" zeroBuf).stderr =
      ["Fehler: libpng Runtime-Version konnte nicht ermittelt werden!\n"] ∧
    (run zId 0 "1.6.43" zeroBuf).exitCode = 1 :=
  c5_version_zero zId "1.6.43" zeroBuf textBytes textBytes rfl rfl

/-- C6: after every successful decompression the terminator byte 0 is stored
at index `decompressedSize` of the decompressed buffer — unconditionally, with
no capacity check guarding the write — and under the zlib contract that index
is within the 100-byte buffer's bounds. -/
theorem c6_terminator (z : Zlib) (v : Nat) (s : String) (b : Nat → Byte)
    (c d : List Byte) (hc : z.compress 100 textBytes = some c)
    (hu : z.uncompress 100 c = some d) :
    (run z v s b).terminatorIndex = some d.length ∧
    (run z v s b).decompressedLen = some d.length ∧
    (run z v s b).decompBuf d.length = 0 ∧
    (ZlibSpec z → d.length < 100) := by
  have hbuf : finalBuf b d d.length = 0 := (finalBuf_read b d).2
  have hlt : ZlibSpec z → d.length < 100 := by
    intro hz
    have hd : d = textBytes := hz.roundtrip 100 100 textBytes c d hc hu
    rw [hd, textBytes_length]
    omega
  by_cases hv : v = 0
  · subst hv
    rw [run_eq_versionFail z s b c d hc hu]
    exact ⟨rfl, rfl, hbuf, hlt⟩
  · rw [run_eq_success z v s b c d hv hc hu]
    exact ⟨rfl, rfl, hbuf, hlt⟩

theorem c6_terminator_witness :
    (run zId 1 "1.6.43" zeroBuf).terminatorIndex = some textBytes.length ∧
    (run zId 1 "1.6.43" zeroBuf).decompressedLen = some textBytes.length ∧
    (run zId 1 "1.6.43" zeroBuf).decompBuf textBytes.length = 0 ∧
    (ZlibSpec zId → textBytes.length < 100) :=
  c6_terminator zId 1 "1.6.43" zeroBuf textBytes textBytes rfl rfl

/-- C7: the program performs no programmatic equality check between the
decompressed bytes and the original text: for an arbitrary decompression
output `d` (not assumed equal to the input), the success path prints both
strings and the exit status depends only on the version query, never on
whether `d` equals the original text. -/
theorem c7_no_equality_check (z : Zlib) (v : Nat) (s : String) (b : Nat → Byte)
    (c d : List Byte) (hc : z.compress 100 textBytes = some c)
    (hu : z.uncompress 100 c = some d) :
    (run z v s b).exitCode = (if v = 0 then 1 else 0) ∧
    (run z v s b).stdout = headLines v s b d ++
      (if v = 0 then []
       else ["zlib und libpng sind erfolgreich gelinkt und verwendbar.\n"]) := by
  by_cases hv : v = 0
  · subst hv
    rw [run_eq_versionFail z s b c d hc hu]
    simp [versionFailResult]
  · rw [run_eq_success z v s b c d hv hc hu]
    simp [successResult, hv]

theorem c7_no_equality_check_witness :
    (run zWrong 7 "1.6.43" zeroBuf).exitCode = (if 7 = 0 then 1 else 0) ∧
    (run zWrong 7 "1.6.43" zeroBuf).stdout = headLines 7 "1.6.43" zeroBuf [2, 3] ++
      (if 7 = 0 then []
       else ["zlib und libpng sind erfolgreich gelinkt und verwendbar.\n"]) :=
  c7_no_equality_check zWrong 7 "1.6.43" zeroBuf [1] [2, 3] rfl rfl

/-- C8: under the zlib contract, a successful compression call records an
output length that is at most the declared capacity 100 of the compressed
buffer — an output exceeding the capacity is reported as failure instead. -/
theorem c8_compress_fits (z : Zlib) (v : Nat) (s : String) (b : Nat → Byte)
    (c : List Byte) (hz : ZlibSpec z)
    (hc : z.compress 100 textBytes = some c) :
    (run z v s b).compressedLen = some c.length ∧ c.length ≤ 100 := by
  refine ⟨?_, hz.compress_fits 100 textBytes c hc⟩
  cases hu : z.uncompress 100 c with
  | none =>
    rw [run_eq_uncompressFail z v s b c hc hu]
    rfl
  | some d =>
    by_cases hv : v = 0
    · subst hv
      rw [run_eq_versionFail z s b c d hc hu]
      rfl
    · rw [run_eq_success z v s b c d hv hc hu]
      rfl

theorem c8_compress_fits_witness :
    (run zId 1 "1.6.43" zeroBuf).compressedLen = some textBytes.length ∧
    textBytes.length ≤ 100 :=
  c8_compress_fits zId 1 "1.6.43" zeroBuf textBytes zId_spec rfl

/-- C9: on an entirely successful run the process exits with status 0 and
standard output holds exactly the original text, the decompressed text equal
to the original, the compile-time version string, the numeric runtime
version, and the final success confirmation line. -/
theorem c9_success_output (z : Zlib) (v : Nat) (s : String) (b : Nat → Byte)
    (c d : List Byte) (hz : ZlibSpec z)
    (hc : z.compress 100 textBytes = some c)
    (hu : z.uncompress 100 c = some d) (hv : v ≠ 0) :
    (run z v s b).exitCode = 0 ∧
    (run z v s b).stdout =
      ["Original:     Hello from zlib via conda forge!\n",
       "Dekomprimiert: Hello from zlib via conda forge!\n",
       "\nlibpng compile-time version: " ++ s ++ "\n",
       "libpng runtime version (numeric): " ++ toString v ++ "\n",
       "zlib und libpng sind erfolgreich gelinkt und verwendbar.\n"] := by
  have hd : d = textBytes := hz.roundtrip 100 100 textBytes c d hc hu
  subst hd
  rw [run_eq_success z v s b c textBytes hv hc hu]
  refine ⟨rfl, ?_⟩
  have hcs : cstrFrom (finalBuf b textBytes) 0 101 = textBytes :=
    finalBuf_cstr b textBytes textBytes_nonzero (by rw [textBytes_length]; omega)
  simp only [successResult, headLines]
  rw [hcs]
  rfl

theorem c9_success_output_witness :
    (run zId 1 "1.6.43" zeroBuf).exitCode = 0 ∧
    (run zId 1 "1.6.43" zeroBuf).stdout =
      ["Original:     Hello from zlib via conda forge!\n",
       "Dekomprimiert: Hello from zlib via conda forge!\n",
       "\nlibpng compile-time version: " ++ "1.6.43" ++ "\n",
       "libpng runtime version (numeric): " ++ toString 1 ++ "\n",
       "zlib und libpng sind erfolgreich gelinkt und verwendbar.\n"] :=
  c9_success_output zId 1 "1.6.43" zeroBuf textBytes textBytes zId_spec rfl rfl
    one_ne_zero

/-- C10: the numeric runtime version is printed to standard output before the
zero-sentinel check, so a version-query failure still leaves the numeric line
(showing 0) on stdout next to the stderr diagnostic; the compression and
decompression failure diagnostics go to stdout, and standard error carries a
line only in the version-failure case. -/
theorem c10_stream_routing :
    (∀ (z : Zlib) (v : Nat) (s : String) (b : Nat → Byte),
      z.compress 100 textBytes = none →
        (run z v s b).stdout = ["Fehler bei compress()\n"] ∧
        (run z v s b).stderr = []) ∧
    (∀ (z : Zlib) (v : Nat) (s : String) (b : Nat → Byte) (c : List Byte),
      z.compress 100 textBytes = some c → z.uncompress 100 c = none →
        (run z v s b).stdout = ["Fehler bei uncompress()\n"] ∧
        (run z v s b).stderr = []) ∧
    (∀ (z : Zlib) (s : String) (b : Nat → Byte) (c d : List Byte),
      z.compress 100 textBytes = some c → z.uncompress 100 c = some d →
        ("libpng runtime version (numeric): 0\n" ∈ (run z 0 s b).stdout ∧
         (run z 0 s b).stderr =
           ["Fehler: libpng Runtime-Version konnte nicht ermittelt werden!\n"])) := by
  refine ⟨?_, ?_, ?_⟩
  · intro z v s b hc
    rw [run_eq_compressFail z v s b hc]
    exact ⟨rfl, rfl⟩
  · intro z v s b c hc hu
    rw [run_eq_uncompressFail z v s b c hc hu]
    exact ⟨rfl, rfl⟩
  · intro z s b c d hc hu
    rw [run_eq_versionFail z s b c d hc hu]
    refine ⟨?_, rfl⟩
    show _ ∈ headLines 0 s b d
    simp only [headLines]
    exact List.Mem.tail _ (List.Mem.tail _ (List.Mem.tail _ (List.Mem.head _)))

theorem c10_stream_routing_witness :
    (run zCompressFail 1 "1.6.43" zeroBuf).stderr = [] ∧
    (run zUncompressFail 2 "1.6.43" zeroBuf).stderr = [] ∧
    "libpng runtime version (numeric): 0\n" ∈ (run zId 0 "1.6.43" zeroBuf).stdout :=
  ⟨(c10_stream_routing.1 zCompressFail 1 "1.6.43" zeroBuf rfl).2,
   (c10_stream_routing.2.1 zUncompressFail 2 "1.6.43" zeroBuf textBytes rfl rfl).2,
   (c10_stream_routing.2.2 zId "1.6.43" zeroBuf textBytes textBytes rfl rfl).1⟩

end ZlibDemo
